import Mathlib

/-!
Shallow embedding of `QOpenScienceFramework/connection.py`: the OAuth2
session state, the token-lifecycle predicates (`is_authorized`,
`token_valid`), the endpoint resolver (`api_call` over the `api_calls`
mapping), `logout`, `parse_token_from_url`, and the authenticated-request
wrapper produced by the `requires_authentication` decorator
(`func_wrapper`).  Python exceptions are modelled by an explicit outcome
type; machine time is modelled by an integer timestamp passed explicitly.
-/

set_option autoImplicit false

namespace OSF

/-- A stored OAuth2 token: the fields the library code reads.  In the
source this is the token dict of the session, with keys `access_token` and
`expires_at` (a timestamp compared against `time.time()`). -/
structure Token where
  access_token : String
  expires_at : Int
  deriving DecidableEq, Repr

/-- The OAuth2 session object (`requests_oauthlib.OAuth2Session`) as far as
`connection.py` inspects it: its stored token (absent or falsy token is
`none`) and its CSRF `state` parameter.  The module-level global `session`
is modelled as `Option Session` (it is `None` until `create_session`). -/
structure Session where
  token : Option Token
  state : Option String
  deriving DecidableEq, Repr

/-- Python exceptions that the embedded code can raise. -/
inductive PyExc where
  | tokenExpiredError (msg : String)
  | osfInvalidResponse (msg : String)
  | attributeError (msg : String)
  | nameError (msg : String)
  | keyError (key : String)
  | indexError (msg : String)
  | tokenParseError (msg : String)
  deriving DecidableEq, Repr

/-- What the wrapper inspects of a parsed JSON error envelope: whether the
body has an `errors` key and, if so, whether `errors[0].detail` is
retrievable (the source catches `AttributeError` around that lookup). -/
inductive JsonShape where
  | withErrorsDetail (detail : String)
  | withErrorsBad
  | noErrors
  deriving DecidableEq, Repr

/-- Python values the wrapper can return normally. -/
inductive PyVal where
  | bool (b : Bool)
  | json (j : JsonShape)
  | bytes (content : String)
  | pyNone
  deriving DecidableEq, Repr

/-- Outcome of running a piece of Python code: a normal return or a raised
exception. -/
inductive PyOutcome where
  | ret (v : PyVal)
  | raised (e : PyExc)
  deriving DecidableEq, Repr

/-- True when the outcome is a raised exception. -/
def PyOutcome.isRaise : PyOutcome → Bool
  | .ret _ => false
  | .raised _ => true

/-- An HTTP response as far as the wrapper inspects it: status code,
`headers[content-type]`, reason phrase, raw body, and the result of
`.json()` (`none` when the body fails to parse as JSON). -/
structure Response where
  status_code : Nat
  content_type : String
  reason : String
  content : String
  json : Option JsonShape
  deriving DecidableEq, Repr

/-- Modelled from the spec: the semantics of the third-party
`OAuth2Session.authorized` property read at `connection.py:127` (the
OAuth2 client library is not part of this repository).  Per the spec it
is true iff a token has been successfully stored and accepted by the
session, i.e. a token record with a non-empty access token is present. -/
def Session.authorized (s : Session) : Bool :=
  match s.token with
  | none => false
  | some t => decide (t.access_token ≠ "")

/-- Embedding of `is_authorized` (`connection.py:125`): returns
`session.authorized`. -/
def is_authorized (s : Session) : Bool :=
  s.authorized

/-- Embedding of `token_valid` (`connection.py:129`): false when the
global session is absent or its token is absent/falsy, else compares
`token[expires_at] > time.time()`; `now` stands for `time.time()`. -/
def token_valid (sess : Option Session) (now : Int) : Bool :=
  match sess with
  | none => false
  | some s =>
    match s.token with
    | none => false
    | some t => decide (t.expires_at > now)

/-- The token stored on the (possibly absent) global session. -/
def tokenOf : Option Session → Option Token
  | none => none
  | some s => s.token

/-- The canonical invalid-token error detail tested at
`connection.py:182`. -/
def invalidTokenMsg : String := "User provided an invalid OAuth2 access token"

/-- Embedding of `logout` (`connection.py:204`): posts the revocation
request (its status code is the parameter `revokeStatus`); on 204 the
source executes `session = reset_session()`, but `reset_session` is
defined nowhere in the repository, so the name lookup raises `NameError`
before the assignment and the session is left unchanged; on any other
status it returns `False` with the session unchanged. -/
def logout (sess : Session) (revokeStatus : Nat) : PyOutcome × Session :=
  if revokeStatus = 204 then
    (.raised (.nameError "name reset_session is not defined"), sess)
  else
    (.ret (.bool false), sess)

/-- The error text built at `connection.py:195` for an unhandled
response. -/
def errorText (status : Nat) (reason ct message : String) : String :=
  "Could not handle response " ++ toString status ++ ": " ++ reason ++
    "\nContent Type: " ++ ct ++ "\n" ++ message

/-- Embedding of the response-classification half of `func_wrapper`
(`connection.py:152` onward), entered after the authorization and expiry
checks pass.  Faithful to the source control flow, including: the missing
`raise` on the `JSONDecodeError` branch at line 173 (after which
`response.keys()` on the raw response object raises `AttributeError`),
and the rebinding of `response` to the parsed dict at line 171 (after
which the fall-through access `response.headers` at line 190 raises
`AttributeError` on a dict). -/
def handle_response (sess : Session) (resp : Response) (revokeStatus : Nat) :
    PyOutcome × Session :=
  if resp.status_code = 200 ∧ resp.content_type = "application/vnd.api+json" then
    match resp.json with
    | none => (.raised (.osfInvalidResponse "Could not decode response to JSON"), sess)
    | some j => (.ret (.json j), sess)
  else if resp.status_code = 200 ∧ resp.content_type = "application/octet-stream" then
    (.ret (.bytes resp.content), sess)
  else if resp.content_type = "application/json" ∨
      resp.content_type = "application/vnd.api+json" then
    match resp.json with
    | none =>
      (.raised (.attributeError "Response object has no attribute keys"), sess)
    | some j =>
      match j with
      | .withErrorsDetail d =>
        if d = invalidTokenMsg then
          match logout sess revokeStatus with
          | (.raised e, s2) => (.raised e, s2)
          | (.ret _, s2) => (.raised (.tokenExpiredError d), s2)
        else
          (.raised (.attributeError "dict object has no attribute headers"), sess)
      | .withErrorsBad =>
        (.raised (.osfInvalidResponse
          "An error occured, but OSF error message could not be retrieved. Invalid format?"), sess)
      | .noErrors =>
        (.raised (.attributeError "dict object has no attribute headers"), sess)
  else
    (.raised (.osfInvalidResponse (errorText resp.status_code resp.reason
      resp.content_type
      (if resp.content_type = "text/html" ∨ resp.content_type = "application/octet-stream"
        then "" else resp.content))), sess)

/-- One piece of a Python format-string template: a literal run of text
or a positional `\x7b\x7d` placeholder. -/
inductive Tpart where
  | lit (s : String)
  | hole
  deriving DecidableEq, Repr

/-- Renders a template part back to its source text (a hole renders as
the two-character brace pair). -/
def Tpart.render : Tpart → String
  | .lit s => s
  | .hole => "\x7b\x7d"

/-- Renders a parsed template back to the source template string. -/
def renderTpl (ps : List Tpart) : String :=
  String.join (ps.map Tpart.render)

/-- Semantics of Python `template.format(*args)` for templates made only
of literals and bare positional placeholders: placeholders consume the
arguments in order; running out of arguments raises `IndexError`
(modelled as `none`); surplus arguments are silently ignored. -/
def pyFormat : List Tpart → List String → Option String
  | [], _ => some ""
  | .lit s :: rest, args => Option.map (fun t => s ++ t) (pyFormat rest args)
  | .hole :: rest, a :: more => Option.map (fun t => a ++ t) (pyFormat rest more)
  | .hole :: _, [] => none

/-- Number of positional placeholders in a template. -/
def holes : List Tpart → Nat
  | [] => 0
  | .lit _ :: rest => holes rest
  | .hole :: rest => holes rest + 1

/-- Embedding of the `api_calls` dictionary (`connection.py:79`), with
each URL template string parsed into literal/placeholder parts. -/
def api_calls : List (String × List Tpart) :=
  [ ("logged_in_user", [.lit "users/me/"]),
    ("projects", [.lit "users/me/nodes/"]),
    ("project_repos", [.lit "nodes/", .hole, .lit "/files/"]),
    ("repo_files", [.lit "nodes/", .hole, .lit "/files/", .hole, .lit "/"]),
    ("file_info", [.lit "files/", .hole, .lit "/"]) ]

/-- Embedding of `api_call` (`connection.py:87`):
`api_base_url + api_calls[command].format(*args)`.  An unregistered
command raises `KeyError` from the dict lookup; too few arguments raise
`IndexError` from `format`.  `base` stands for `api_base_url`, which is
read from the settings file. -/
def api_call (base command : String) (args : List String) : Except PyExc String :=
  match api_calls.lookup command with
  | none => .error (.keyError command)
  | some tpl =>
    match pyFormat tpl args with
    | none => .error (.indexError "tuple index out of range")
    | some s => .ok (base ++ s)

/-- A redirect URL as far as token extraction inspects it: the token
parameters carried in the URL fragment (`none` when the fragment lacks
them) and the `state` parameter of the fragment. -/
structure Redirect where
  fragToken : Option Token
  fragState : Option String
  deriving DecidableEq, Repr

/-- Modelled from the spec: state validation inside the third-party
token-fragment parser (not part of this repository) — the check fails
only when the session carries an expected state and the state in the
fragment differs from it. -/
def stateMatches (expected got : Option String) : Bool :=
  match expected with
  | none => true
  | some s => decide (got = some s)

/-- Modelled from the spec: `OAuth2Session.token_from_fragment`
(`connection.py:118` delegates to the third-party OAuth client library,
which is not part of this repository).  Per the spec it extracts the
token fragment from a fully-qualified redirect URL and stores it on the
session, and fails with `TokenParseError` if the URL lacks the expected
fragment or the state parameter does not match; on failure the session
is left unchanged. -/
def token_from_fragment (sess : Session) (url : Redirect) :
    Except PyExc (Token × Session) :=
  match url.fragToken with
  | none => .error (.tokenParseError "Missing access token parameter")
  | some t =>
    if stateMatches sess.state url.fragState then
      .ok (t, { sess with token := some t })
    else
      .error (.tokenParseError "CSRF warning: state not equal in request and response")

/-- Embedding of `parse_token_from_url` (`connection.py:116`): parses the
token from the URL fragment, then returns it when `is_authorized()` holds
and otherwise logs a debug message and returns `None`.  The result pairs
the outcome with the session afterwards. -/
def parse_token_from_url (sess : Session) (url : Redirect) :
    Except PyExc (Option Token) × Session :=
  match token_from_fragment sess url with
  | .error e => (.error e, sess)
  | .ok (t, s2) =>
    if is_authorized s2 then
      (.ok (some t), s2)
    else
      (.ok none, s2)

/-- Result of one call through the authenticated-request wrapper:
outcome, whether the wrapped function was invoked (i.e. whether a network
call was made), and the global session afterwards. -/
structure WrapResult where
  outcome : PyOutcome
  called : Bool
  session : Session
  deriving DecidableEq, Repr

/-- Embedding of `func_wrapper`, the wrapper that
`requires_authentication` (`connection.py:135`) puts around every API
call.  `resp` is the response the wrapped function would return if
invoked; `revokeStatus` is the status the revocation endpoint would
return if `logout` gets called.  Unauthorized: prints and returns
`False`.  Expired token: raises `TokenExpiredError`.  Otherwise invokes
the wrapped function and classifies the response. -/
def func_wrapper (sess : Session) (now : Int) (resp : Response)
    (revokeStatus : Nat) : WrapResult :=
  if is_authorized sess = false then
    { outcome := .ret (.bool false), called := false, session := sess }
  else if token_valid (some sess) now = false then
    { outcome := .raised (.tokenExpiredError "The supplied token has expired"),
      called := false, session := sess }
  else
    let r := handle_response sess resp revokeStatus
    { outcome := r.1, called := true, session := r.2 }

/-! Helper lemmas about the format-string semantics. -/

theorem pyFormat_isSome (ps : List Tpart) (args : List String)
    (h : holes ps ≤ args.length) : ∃ s, pyFormat ps args = some s := by
  induction ps generalizing args with
  | nil => exact ⟨"", rfl⟩
  | cons p rest ih =>
    cases p with
    | lit s =>
      simp only [holes] at h
      obtain ⟨t, ht⟩ := ih args h
      exact ⟨s ++ t, by simp [pyFormat, ht]⟩
    | hole =>
      cases args with
      | nil => simp [holes] at h
      | cons a more =>
        simp only [holes, List.length_cons] at h
        obtain ⟨t, ht⟩ := ih more (by omega)
        exact ⟨a ++ t, by simp [pyFormat, ht]⟩

theorem pyFormat_none (ps : List Tpart) (args : List String)
    (h : args.length < holes ps) : pyFormat ps args = none := by
  induction ps generalizing args with
  | nil => simp [holes] at h
  | cons p rest ih =>
    cases p with
    | lit s =>
      simp only [holes] at h
      simp [pyFormat, ih args h]
    | hole =>
      cases args with
      | nil => simp [pyFormat]
      | cons a more =>
        simp only [holes, List.length_cons] at h
        simp [pyFormat, ih more (by omega)]

/-- Sanity check: the parsed templates render back to the exact template
strings of the source dictionary. -/
theorem api_calls_render :
    api_calls.map (fun p => (p.1, renderTpl p.2)) =
      [ ("logged_in_user", "users/me/"),
        ("projects", "users/me/nodes/"),
        ("project_repos", "nodes/\x7b\x7d/files/"),
        ("repo_files", "nodes/\x7b\x7d/files/\x7b\x7d/"),
        ("file_info", "files/\x7b\x7d/") ] := by decide

/-! Claim theorems. -/

/-- C4: `token_valid()` returns false exactly when no session/token
exists or `expires_at <= now` (including the boundary instant
`expires_at == now`), and returns true exactly when a token exists and
`expires_at > now`. -/
theorem C4_token_valid_boundary (sess : Option Session) (now : Int) :
    (token_valid sess now = true ↔
      ∃ t, tokenOf sess = some t ∧ now < t.expires_at) ∧
    (token_valid sess now = false ↔
      tokenOf sess = none ∨
        ∃ t, tokenOf sess = some t ∧ t.expires_at ≤ now) := by
  cases sess with
  | none => simp [token_valid, tokenOf]
  | some s =>
    cases h : s.token with
    | none => simp [token_valid, tokenOf, h]
    | some t =>
      constructor
      · simp [token_valid, tokenOf, h]
      · simp [token_valid, tokenOf, h]

/-- C6: while authorized but with an expired token, the wrapper raises
`TokenExpiredError` and never invokes the wrapped function, so no network
call is made. -/
theorem C6_expired_token_rejected (sess : Session) (now : Int)
    (resp : Response) (rev : Nat)
    (hauth : is_authorized sess = true)
    (hexp : token_valid (some sess) now = false) :
    func_wrapper sess now resp rev =
      { outcome := .raised (.tokenExpiredError "The supplied token has expired"),
        called := false, session := sess } := by
  simp [func_wrapper, hauth, hexp]

/-- C6 witness: a concrete authorized session whose token expired before
`now = 5`; the wrapper raises `TokenExpiredError` without calling the
wrapped function. -/
theorem C6_expired_token_rejected_witness :
    is_authorized ⟨some ⟨"tok", 3⟩, none⟩ = true ∧
    token_valid (some ⟨some ⟨"tok", 3⟩, none⟩) 5 = false ∧
    func_wrapper ⟨some ⟨"tok", 3⟩, none⟩ 5
        ⟨200, "application/vnd.api+json", "OK", "", some .noErrors⟩ 0 =
      { outcome := .raised (.tokenExpiredError "The supplied token has expired"),
        called := false, session := ⟨some ⟨"tok", 3⟩, none⟩ } :=
  ⟨by decide, by decide,
    C6_expired_token_rejected ⟨some ⟨"tok", 3⟩, none⟩ 5
      ⟨200, "application/vnd.api+json", "OK", "", some .noErrors⟩ 0
      (by decide) (by decide)⟩

/-- C10: `is_authorized` and `token_valid` are independent: there is a
session state (a stored token whose expiry has passed) in which
`is_authorized` is true while `token_valid` is false, so the former never
implies the latter. -/
theorem C10_authorized_but_expired :
    ∃ (s : Session) (now : Int),
      is_authorized s = true ∧ token_valid (some s) now = false :=
  ⟨⟨some ⟨"tok", 3⟩, none⟩, 5, by decide, by decide⟩

/-- C1 counterexample: with a concrete unauthorized session the wrapper
does not fail with any exception at all (so in particular not with a
NotAuthenticatedError); it returns the plain value `False`, although the
wrapped function is indeed never invoked. -/
theorem C1_no_exception_counterexample :
    func_wrapper ⟨none, none⟩ 0
        ⟨404, "application/json", "Not Found", "", some (.withErrorsDetail "x")⟩ 204 =
      { outcome := .ret (.bool false), called := false, session := ⟨none, none⟩ } ∧
    (func_wrapper ⟨none, none⟩ 0
        ⟨404, "application/json", "Not Found", "", some (.withErrorsDetail "x")⟩
        204).outcome.isRaise = false := by
  decide

/-- C1 (amended): while the session is not authorized the wrapper
returns the failure value `False` immediately without raising any
exception, and the wrapped function is never invoked, so no network call
is made. -/
theorem C1_unauthorized_returns_false (sess : Session) (now : Int)
    (resp : Response) (rev : Nat)
    (h : is_authorized sess = false) :
    func_wrapper sess now resp rev =
      { outcome := .ret (.bool false), called := false, session := sess } ∧
    (func_wrapper sess now resp rev).outcome.isRaise = false := by
  constructor
  · simp [func_wrapper, h]
  · simp [func_wrapper, h, PyOutcome.isRaise]

/-- C1 witness: the amended statement at a concrete unauthorized
session. -/
theorem C1_unauthorized_returns_false_witness :
    is_authorized ⟨none, some "st"⟩ = false ∧
    (func_wrapper ⟨none, some "st"⟩ 7
        ⟨200, "application/vnd.api+json", "OK", "", some .noErrors⟩ 0 =
      { outcome := .ret (.bool false), called := false,
        session := ⟨none, some "st"⟩ } ∧
    (func_wrapper ⟨none, some "st"⟩ 7
        ⟨200, "application/vnd.api+json", "OK", "", some .noErrors⟩
        0).outcome.isRaise = false) :=
  ⟨by decide,
    C1_unauthorized_returns_false ⟨none, some "st"⟩ 7
      ⟨200, "application/vnd.api+json", "OK", "", some .noErrors⟩ 0 (by decide)⟩

/-- C2: evaluation at the failing input.  With a valid authorized
session and a 401 JSON response whose error detail is the canonical
invalid-token message, the code calls `logout`; when the revocation
endpoint answers 204, `logout` hits the undefined name `reset_session`
and the whole call raises `NameError` — no `TokenExpiredError` and no
state reset; when the revocation endpoint answers anything else,
`TokenExpiredError` is raised but the session is untouched and
`is_authorized` stays true, contrary to the claimed forced logout. -/
theorem C2_invalid_token_divergence :
    func_wrapper ⟨some ⟨"tok", 100⟩, none⟩ 5
        ⟨401, "application/json", "Unauthorized", "body",
          some (.withErrorsDetail "User provided an invalid OAuth2 access token")⟩
        204 =
      { outcome := .raised (.nameError "name reset_session is not defined"),
        called := true, session := ⟨some ⟨"tok", 100⟩, none⟩ } ∧
    func_wrapper ⟨some ⟨"tok", 100⟩, none⟩ 5
        ⟨401, "application/json", "Unauthorized", "body",
          some (.withErrorsDetail "User provided an invalid OAuth2 access token")⟩
        400 =
      { outcome := .raised (.tokenExpiredError
          "User provided an invalid OAuth2 access token"),
        called := true, session := ⟨some ⟨"tok", 100⟩, none⟩ } ∧
    is_authorized ⟨some ⟨"tok", 100⟩, none⟩ = true := by
  decide

/-- C3: evaluation at the failing inputs.  For a non-200 JSON response
whose error detail is not the invalid-token message, the source rebinds
`response` to the parsed dict and then reads `response.headers`, raising
`AttributeError` instead of the claimed `OSFInvalidResponse`; for a
non-200 JSON response whose body fails to parse, the missing `raise`
at line 173 lets control reach `response.keys()` on the raw response
object, again raising `AttributeError`. -/
theorem C3_json_error_divergence :
    (func_wrapper ⟨some ⟨"tok", 100⟩, none⟩ 5
        ⟨404, "application/json", "Not Found", "x",
          some (.withErrorsDetail "Not found.")⟩ 0).outcome =
      .raised (.attributeError "dict object has no attribute headers") ∧
    (func_wrapper ⟨some ⟨"tok", 100⟩, none⟩ 5
        ⟨404, "application/json", "Not Found", "x", none⟩ 0).outcome =
      .raised (.attributeError "Response object has no attribute keys") ∧
    (func_wrapper ⟨some ⟨"tok", 100⟩, none⟩ 5
        ⟨404, "application/json", "Not Found", "x", some .noErrors⟩ 0).outcome =
      .raised (.attributeError "dict object has no attribute headers") := by
  decide

/-- C5: evaluation at the failing input.  On a 204 revocation response
the source executes the undefined name `reset_session`, so `logout`
raises `NameError` instead of discarding the session and returning
`True`; on any other status it does leave the session unchanged and
returns `False` as claimed. -/
theorem C5_logout_divergence :
    logout ⟨some ⟨"tok", 100⟩, none⟩ 204 =
      (.raised (.nameError "name reset_session is not defined"),
        ⟨some ⟨"tok", 100⟩, none⟩) ∧
    logout ⟨some ⟨"tok", 100⟩, none⟩ 400 =
      (.ret (.bool false), ⟨some ⟨"tok", 100⟩, none⟩) := by
  decide

/-- C7 counterexample: surplus arguments do not make endpoint resolution
fail — resolving the zero-placeholder command with one extra argument
succeeds. -/
theorem C7_surplus_args_counterexample :
    api_call "https://api.osf.io/v2/" "logged_in_user" ["surplus"] =
      .ok "https://api.osf.io/v2/users/me/" := by
  rfl

/-- C7 (amended): for every registered command, endpoint resolution
fails with the surfaced string-formatting failure (`IndexError`) exactly
when fewer arguments are supplied than the template has placeholders;
surplus arguments are silently ignored and resolution succeeds. -/
theorem C7_template_arity (base command : String) (tpl : List Tpart)
    (args : List String)
    (hreg : api_calls.lookup command = some tpl) :
    (args.length < holes tpl →
      api_call base command args = .error (.indexError "tuple index out of range")) ∧
    (holes tpl ≤ args.length →
      ∃ s, api_call base command args = .ok (base ++ s)) := by
  constructor
  · intro h
    simp [api_call, hreg, pyFormat_none tpl args h]
  · intro h
    obtain ⟨s, hs⟩ := pyFormat_isSome tpl args h
    exact ⟨s, by simp [api_call, hreg, hs]⟩

/-- C7 witness: the amended statement at the one-placeholder command
with an empty argument list. -/
theorem C7_template_arity_witness :
    api_calls.lookup "project_repos" = some [.lit "nodes/", .hole, .lit "/files/"] ∧
    ([] : List String).length < holes [.lit "nodes/", .hole, .lit "/files/"] ∧
    api_call "b" "project_repos" [] = .error (.indexError "tuple index out of range") :=
  ⟨by decide, by decide,
    (C7_template_arity "b" "project_repos" [.lit "nodes/", .hole, .lit "/files/"] []
      (by decide)).1 (by decide)⟩

/-- C8: endpoint resolution is a pure function of its inputs — the
project-repos command with a project id yields
`api_base_url + nodes/abc123/files/`, the logged-in-user command yields
`api_base_url + users/me/`, and every unregistered command fails with
the dict-lookup `KeyError`. -/
theorem C8_endpoint_resolution (base : String) :
    api_call base "project_repos" ["abc123"] = .ok (base ++ "nodes/abc123/files/") ∧
    api_call base "logged_in_user" [] = .ok (base ++ "users/me/") ∧
    ∀ command args, api_calls.lookup command = none →
      api_call base command args = .error (.keyError command) := by
  refine ⟨rfl, rfl, ?_⟩
  intro command args h
  simp [api_call, h]

/-- C8 witness: the unregistered-command branch at a concrete command
name. -/
theorem C8_endpoint_resolution_witness :
    api_calls.lookup "bogus" = none ∧
    api_call "b" "bogus" [] = .error (.keyError "bogus") :=
  ⟨by decide, (C8_endpoint_resolution "b").2.2 "bogus" [] (by decide)⟩

/-- C9: a redirect URL whose fragment carries a valid (non-empty) token
with a matching state makes `parse_token_from_url` store the token and
return it, and `is_authorized` is true afterwards; a URL missing the
token fragment makes it fail with the token-parse error and leaves the
session — hence the stored token and `is_authorized` — unchanged. -/
theorem C9_parse_token_from_url (sess : Session) (url : Redirect) :
    (∀ t, url.fragToken = some t → t.access_token ≠ "" →
      stateMatches sess.state url.fragState = true →
      parse_token_from_url sess url =
        (.ok (some t), { sess with token := some t }) ∧
      is_authorized (parse_token_from_url sess url).2 = true) ∧
    (url.fragToken = none →
      parse_token_from_url sess url =
        (.error (.tokenParseError "Missing access token parameter"), sess)) := by
  constructor
  · intro t ht hne hst
    have hres : parse_token_from_url sess url =
        (.ok (some t), { sess with token := some t }) := by
      simp [parse_token_from_url, token_from_fragment, ht, hst,
        is_authorized, Session.authorized, hne]
    exact ⟨hres, by simp [hres, is_authorized, Session.authorized, hne]⟩
  · intro hnone
    simp [parse_token_from_url, token_from_fragment, hnone]

/-- C9 witness: both halves at concrete inputs — a fragment carrying the
token `tok123` with matching state stores it and authorizes the session,
and a fragment-less URL fails with the token-parse error leaving the
session unchanged. -/
theorem C9_parse_token_from_url_witness :
    parse_token_from_url ⟨none, some "xyz"⟩
        ⟨some ⟨"tok123", 99⟩, some "xyz"⟩ =
      (.ok (some ⟨"tok123", 99⟩), ⟨some ⟨"tok123", 99⟩, some "xyz"⟩) ∧
    is_authorized (parse_token_from_url ⟨none, some "xyz"⟩
        ⟨some ⟨"tok123", 99⟩, some "xyz"⟩).2 = true ∧
    parse_token_from_url ⟨none, some "xyz"⟩ ⟨none, some "xyz"⟩ =
      (.error (.tokenParseError "Missing access token parameter"),
        ⟨none, some "xyz"⟩) :=
  ⟨((C9_parse_token_from_url ⟨none, some "xyz"⟩
      ⟨some ⟨"tok123", 99⟩, some "xyz"⟩).1 ⟨"tok123", 99⟩ rfl
      (by decide) (by decide)).1,
    ((C9_parse_token_from_url ⟨none, some "xyz"⟩
      ⟨some ⟨"tok123", 99⟩, some "xyz"⟩).1 ⟨"tok123", 99⟩ rfl
      (by decide) (by decide)).2,
    (C9_parse_token_from_url ⟨none, some "xyz"⟩ ⟨none, some "xyz"⟩).2 rfl⟩

end OSF
